import Mathlib

/-!
# Verification of the APNS binary-protocol client (`push_notifications/apns.py`)

A shallow embedding of the module's pure codec (`_apns_pack_message`,
`_apns_unpack_feedback`, the payload construction in `_apns_send`) and of its
stateful operations (`_apns_create_socket`, `apns_send_bulk_message`,
`apns_get_feedback`) as trace-producing functions.  Byte strings are modelled
as `List Nat` (each element one byte / one ASCII code point); machine I/O is
modelled by an explicit event trace; fallible Python code (raised exceptions)
returns `Except Err`.
-/

set_option autoImplicit false
set_option maxRecDepth 100000

namespace APNS

/-- A byte string: each element is one byte (0..255) or one ASCII code. -/
abbrev Bytes := List Nat

/-- The exception taxonomy raised by the module:
`improperlyConfigured` = `django.core.exceptions.ImproperlyConfigured`,
`dataOverflow` = `APNSDataOverflow`, `binasciiError` = the error raised by
`binascii.unhexlify` on a malformed hex token, `structError` = the error raised
by `struct.unpack` on a buffer of the wrong size, `connectionError` = a socket
write failure. -/
inductive Err where
  | improperlyConfigured
  | dataOverflow
  | binasciiError
  | structError
  | connectionError
deriving DecidableEq, Repr

/-- Observable side effects of a run, in order:
`sockNew` = `socket()` (plain socket object creation, no network I/O),
`sslWrap` = `ssl.wrap_socket(...)`, `connect ep` = `sock.connect(...)` to
endpoint `ep` (`0` = `APNS_SOCKET`, `1` = `APNS_FEEDBACK_SOCKET`),
`write f` = a successful `socket.write(f)`, `recv d` = `socket.recv(38)`
returning `d`, `decodeCall d` = an invocation of `_apns_unpack_feedback(d)`,
`close` = `socket.close()`. -/
inductive Event where
  | sockNew
  | sslWrap
  | connect (endpoint : Nat)
  | write (frame : Bytes)
  | recv (data : Bytes)
  | decodeCall (data : Bytes)
  | close
deriving DecidableEq, Repr

/-- `PUSH_NOTIFICATIONS_SETTINGS`, restricted to what the module reads:
the certificate path (`none` models an absent key; the empty string is a
present-but-falsy value) and whether `open(certfile, "r"); f.read()`
succeeds. -/
structure Settings where
  apnsCertificate : Option Bytes
  certReadable : Bool

/-- Python truthiness of `SETTINGS.get("APNS_CERTIFICATE")`:
`None` and `""` are falsy. -/
def certTruthy : Option Bytes → Bool
  | none => false
  | some s => !s.isEmpty

/-- Settings under which `_apns_create_socket` succeeds. -/
def certOK (st : Settings) : Bool :=
  certTruthy st.apnsCertificate && st.certReadable

/-- `struct.pack("!H", n)`: two bytes, big-endian (modelled total via `%`). -/
def be16 (n : Nat) : Bytes :=
  [n / 256 % 256, n % 256]

/-- The unsigned big-endian value of a byte string. -/
def beNat (bs : Bytes) : Nat :=
  bs.foldl (fun a b => 256 * a + b) 0

/-- `struct.unpack("!l", bs)` for a 4-byte string: signed 32-bit big-endian. -/
def beSigned32 (bs : Bytes) : Int :=
  let u := beNat bs
  if u < 2 ^ 31 then (u : Int) else (u : Int) - 2 ^ 32

/-- The value of one ASCII hex digit, `none` for a non-hex character
(`binascii.unhexlify` accepts `0-9`, `a-f`, `A-F`). -/
def hexDigitVal (c : Nat) : Option Nat :=
  if 48 ≤ c ∧ c ≤ 57 then some (c - 48)
  else if 97 ≤ c ∧ c ≤ 102 then some (c - 87)
  else if 65 ≤ c ∧ c ≤ 70 then some (c - 55)
  else none

/-- `binascii.unhexlify(token)`: pairs of hex digits become bytes; an odd
length or a non-hex character raises. -/
def unhexlify : Bytes → Except Err Bytes
  | [] => .ok []
  | [_] => .error .binasciiError
  | c1 :: c2 :: rest =>
    match hexDigitVal c1, hexDigitVal c2 with
    | some h, some l =>
      match unhexlify rest with
      | .ok bs => .ok ((16 * h + l) :: bs)
      | .error e => .error e
    | _, _ => .error .binasciiError

/-- `struct.pack`'s `32s` conversion: truncate to 32 bytes, zero-pad
on the right up to 32 bytes. -/
def pad32 (bs : Bytes) : Bytes :=
  bs.take 32 ++ List.replicate (32 - bs.length) 0

/-- `_apns_pack_message(token, data)` =
`struct.pack("!cH32sH%ds" % len(data), b"\x00", 32, unhexlify(token), len(data), data)`. -/
def apnsPackMessage (token : Bytes) (data : Bytes) : Except Err Bytes :=
  match unhexlify token with
  | .error e => .error e
  | .ok tb => .ok ([0] ++ be16 32 ++ pad32 tb ++ be16 data.length ++ data)

/-- `_apns_unpack_feedback(data)` = `struct.unpack("!lh32s", data)`, keeping
`(timestamp, token)` and discarding the middle 2-byte length field;
`struct.unpack` raises unless the buffer is exactly 38 bytes. -/
def apnsUnpackFeedback (data : Bytes) : Except Err (Int × Bytes) :=
  if data.length = 38 then
    .ok (beSigned32 (data.take 4), data.drop 6)
  else .error .structError

/-- Whether an `Except` is a success. -/
def exceptIsOk {ε α : Type} : Except ε α → Bool
  | .ok _ => true
  | .error _ => false

instance {ε α : Type} [DecidableEq ε] [DecidableEq α] : DecidableEq (Except ε α) :=
  fun x y =>
    match x, y with
    | .ok a, .ok b => if h : a = b then .isTrue (by rw [h]) else .isFalse (by simp [h])
    | .ok _, .error _ => .isFalse (by simp)
    | .error _, .ok _ => .isFalse (by simp)
    | .error a, .error b => if h : a = b then .isTrue (by rw [h]) else .isFalse (by simp [h])

/-! ## JSON values and `json.dumps(..., separators=(",", ":"))`

The payload built by `_apns_send` is a Python dict serialized with compact
separators and `ensure_ascii` (the default).  JSON values are modelled as a
mutual inductive family so that structural recursion and induction over
nested arrays/objects stay elementary.  Dicts keep insertion order. -/

mutual
/-- A JSON value: string, non-negative integer, array, or object. -/
inductive JValue where
  | jstr (s : Bytes)
  | jnat (n : Nat)
  | jarr (xs : JList)
  | jobj (kvs : JObj)
deriving DecidableEq

/-- A list of JSON values. -/
inductive JList where
  | nil
  | cons (v : JValue) (rest : JList)
deriving DecidableEq

/-- A JSON object: ordered key/value pairs. -/
inductive JObj where
  | nil
  | cons (k : Bytes) (v : JValue) (rest : JObj)
deriving DecidableEq
end

/-- Lowercase hex digit, as used by `json.dumps` in `\uXXXX` escapes. -/
def hexUDigit (n : Nat) : Nat :=
  if n < 10 then 48 + n else 87 + n

/-- The six-byte `\uXXXX` escape of a code point below `0x10000`. -/
def escU (c : Nat) : Bytes :=
  [92, 117, hexUDigit (c / 4096 % 16), hexUDigit (c / 256 % 16),
   hexUDigit (c / 16 % 16), hexUDigit (c % 16)]

/-- How `json.dumps` (with `ensure_ascii`) renders one character inside a
string literal: `\"` and `\\`, the short escapes for backspace/tab/newline/
formfeed/carriage-return, `\uXXXX` for the remaining characters outside
`0x20..0x7e`, and the character itself otherwise. -/
def escChar (c : Nat) : Bytes :=
  if c = 34 then [92, 34]
  else if c = 92 then [92, 92]
  else if c = 8 then [92, 98]
  else if c = 9 then [92, 116]
  else if c = 10 then [92, 110]
  else if c = 12 then [92, 102]
  else if c = 13 then [92, 114]
  else if c < 32 then escU c
  else if c < 127 then [c]
  else escU c

/-- A JSON string literal: quote, escaped characters, quote. -/
def jstringSer (s : Bytes) : Bytes :=
  34 :: (s.map escChar).flatten ++ [34]

/-- Decimal digits of `n`, accumulator-style with structural fuel. -/
def natDigitsCore : Nat → Nat → Bytes → Bytes
  | 0, _, acc => acc
  | fuel + 1, n, acc =>
    if n < 10 then (48 + n % 10) :: acc
    else natDigitsCore fuel (n / 10) ((48 + n % 10) :: acc)

/-- How `json.dumps` renders a non-negative integer: decimal digits. -/
def natDigits (n : Nat) : Bytes :=
  natDigitsCore (n + 1) n []

mutual
/-- `json.dumps(v, separators=(",", ":"))`: compact serialization, the only
separators being `,` (byte 44) and `:` (byte 58). -/
def jserialize : JValue → Bytes
  | .jstr s => jstringSer s
  | .jnat n => natDigits n
  | .jarr xs => 91 :: jserializeArr xs ++ [93]
  | .jobj kvs => 123 :: jserializeObj kvs ++ [125]

/-- Array elements joined by `,`. -/
def jserializeArr : JList → Bytes
  | .nil => []
  | .cons v .nil => jserialize v
  | .cons v (.cons w rest) =>
    jserialize v ++ 44 :: jserializeArr (.cons w rest)

/-- Object entries `key:value` joined by `,`. -/
def jserializeObj : JObj → Bytes
  | .nil => []
  | .cons k v .nil => jstringSer k ++ 58 :: jserialize v
  | .cons k v (.cons k2 v2 rest) =>
    jstringSer k ++ 58 :: jserialize v ++ 44 :: jserializeObj (.cons k2 v2 rest)
end

/-- First value stored under `key`, scanning in insertion order. -/
def JObj.lookup : JObj → Bytes → Option JValue
  | .nil, _ => none
  | .cons k v rest, key => if k = key then some v else rest.lookup key

/-- The keys of an object, in order. -/
def JObj.keys : JObj → List Bytes
  | .nil => []
  | .cons k _ rest => k :: rest.keys

/-- `d[key] = v` on a Python dict: replace in place if the key exists,
append otherwise. -/
def JObj.setKey : JObj → Bytes → JValue → JObj
  | .nil, key, v => .cons key v .nil
  | .cons k0 v0 rest, key, v =>
    if k0 = key then .cons k0 v rest else .cons k0 v0 (rest.setKey key v)

/-- `d.update(ext)`: set each of `ext`'s entries in order. -/
def JObj.update : JObj → JObj → JObj
  | d, .nil => d
  | d, .cons k v rest => JObj.update (d.setKey k v) rest

/-! ## The payload built by `_apns_send` (lines 66–99) -/

/-- ASCII bytes of a key literal. -/
def asciiBytes (s : String) : Bytes :=
  s.data.map Char.toNat

def apsK : Bytes := asciiBytes "aps"
def alertK : Bytes := asciiBytes "alert"
def bodyK : Bytes := asciiBytes "body"
def actionLocKeyK : Bytes := asciiBytes "action-loc-key"
def locKeyK : Bytes := asciiBytes "loc-key"
def locArgsK : Bytes := asciiBytes "loc-args"
def badgeK : Bytes := asciiBytes "badge"
def soundK : Bytes := asciiBytes "sound"
def contentAvailableK : Bytes := asciiBytes "content-available"
def chimeS : Bytes := asciiBytes "chime"

/-- The keyword arguments of `_apns_send` other than `token`, `alert` and
`socket`.  `none` models an argument left at its `None` default; a `some`
value may still be Python-falsy (empty string / empty list / zero). -/
structure SendOpts where
  badge : Nat
  sound : Bytes
  contentAvailable : Bool
  actionLocKey : Option Bytes
  locKey : Option Bytes
  locArgs : Option JList
  extra : JObj

/-- The defaults of `_apns_send`: `badge=0, sound="chime",
content_available=False, action_loc_key=None, loc_key=None, loc_args=None,
extra=None`. -/
def defaultOpts : SendOpts :=
  ⟨0, chimeS, false, none, none, none, .nil⟩

/-- Python truthiness of an optional string argument: `None` and `""` are
falsy. -/
def truthyOpt : Option Bytes → Bool
  | none => false
  | some s => !s.isEmpty

/-- Python truthiness of an optional list argument: `None` and `[]` are
falsy. -/
def truthyList : Option JList → Bool
  | none => false
  | some .nil => false
  | some (.cons _ _) => true

/-- `if c: alert[k] = s` for a string-valued keyword. -/
def consOptStr (k : Bytes) (v : Option Bytes) (rest : JObj) : JObj :=
  match v with
  | some s => if s.isEmpty then rest else .cons k (.jstr s) rest
  | none => rest

/-- `if loc_args: alert["loc-args"] = loc_args`. -/
def consOptArr (k : Bytes) (v : Option JList) (rest : JObj) : JObj :=
  match v with
  | some (.cons w ws) => .cons k (.jarr (.cons w ws)) rest
  | some .nil => rest
  | none => rest

/-- The guard of line 70: `if action_loc_key or loc_key or loc_args`. -/
def anyLocTruthy (o : SendOpts) : Bool :=
  truthyOpt o.actionLocKey || truthyOpt o.locKey || truthyList o.locArgs

/-- Lines 71–77: `{"body": alert}` extended with each truthy localization
field, in assignment order. -/
def wrappedAlert (alert : JValue) (o : SendOpts) : JObj :=
  .cons bodyK alert
    (consOptStr actionLocKeyK o.actionLocKey
      (consOptStr locKeyK o.locKey
        (consOptArr locArgsK o.locArgs .nil)))

/-- Lines 70–77: if any of `action_loc_key` / `loc_key` / `loc_args` is
truthy, `alert` is replaced by the wrapped object; otherwise `alert` is left
as given. -/
def buildAlert (alert : JValue) (o : SendOpts) : JValue :=
  if anyLocTruthy o then .jobj (wrappedAlert alert o) else alert

/-- `if b: data[k] = v` for the conditional fields of lines 81–88. -/
def condObj (b : Bool) (k : Bytes) (v : JValue) (rest : JObj) : JObj :=
  if b then .cons k v rest else rest

/-- Lines 68–91: the `data` dict in insertion order — `alert`, then `badge`
if non-zero, `sound` if non-empty, `content-available` as `1` if set, then
`data.update(extra)` if `extra` is truthy (updating with an empty dict is a
no-op, so the guard is immaterial). -/
def buildData (alert : JValue) (o : SendOpts) : JObj :=
  JObj.update
    (.cons alertK (buildAlert alert o)
      (condObj (o.badge != 0) badgeK (.jnat o.badge)
        (condObj (!o.sound.isEmpty) soundK (.jstr o.sound)
          (condObj o.contentAvailable contentAvailableK (.jnat 1) .nil))))
    o.extra

/-- Line 94: `json.dumps({"aps": data}, separators=(",", ":"))`. -/
def apsPayload (alert : JValue) (o : SendOpts) : Bytes :=
  jserialize (.jobj (.cons apsK (.jobj (buildData alert o)) .nil))

/-- `APNS_MAX_NOTIFICATION_SIZE`. -/
def APNS_MAX_NOTIFICATION_SIZE : Nat := 256

/-- Lines 94–99 of `_apns_send`: serialize the payload, raise
`APNSDataOverflow` when it exceeds 256 bytes, otherwise pack the wire
frame (where `unhexlify` may raise on a malformed token). -/
def apnsSendFrame (token : Bytes) (alert : JValue) (o : SendOpts) : Except Err Bytes :=
  let data := apsPayload alert o
  if data.length > APNS_MAX_NOTIFICATION_SIZE then .error .dataOverflow
  else apnsPackMessage token data

/-! ## The stateful operations, as trace-producing functions

Each operation returns the ordered list of socket events it performed
together with its outcome; a raised exception aborts the function at the
point it occurs, so the trace records exactly the effects performed before
the raise.  Write failures (`ConnectionError` on `socket.write`) are an
injected fault: `faults i = true` makes the `i`-th write on the operation's
channel fail. -/

/-- `_apns_create_socket(socket_type)` (lines 31–52): `sock = socket()`
first; then the certificate setting is checked for truthiness and the file
for readability, raising `ImproperlyConfigured` before any TLS wrap or
connect; on success the socket is wrapped and connected to the requested
endpoint. -/
def apnsCreateSocket (st : Settings) (socketType : Nat) : List Event × Except Err Unit :=
  if !certTruthy st.apnsCertificate then
    ([.sockNew], .error .improperlyConfigured)
  else if !st.certReadable then
    ([.sockNew], .error .improperlyConfigured)
  else
    ([.sockNew, .sslWrap, .connect socketType], .ok ())

/-- The `socket=None` branch of `_apns_send` (lines 101–106), i.e.
`apns_send_message`: encode the frame (any encode error aborts before any
socket work), create a socket, write the frame, close.  `fault0` injects a
failure of the single write. -/
def apnsSendOne (st : Settings) (fault0 : Bool) (token : Bytes) (alert : JValue)
    (o : SendOpts) : List Event × Except Err Unit :=
  match apnsSendFrame token alert o with
  | .error e => ([], .error e)
  | .ok frame =>
    match apnsCreateSocket st 0 with
    | (tr, .error e) => (tr, .error e)
    | (tr, .ok _) =>
      if fault0 then (tr, .error .connectionError)
      else (tr ++ [.write frame, .close], .ok ())

/-- The loop of `apns_send_bulk_message` (lines 127–128): for each
registration id in order, `_apns_send(id, data, socket=socket, ...)`, which
encodes and writes one frame on the shared channel; the first exception
aborts the loop.  `i` counts writes already performed on the channel. -/
def bulkLoop (faults : Nat → Bool) (alert : JValue) (o : SendOpts) :
    Nat → List Bytes → List Event × Except Err Unit
  | _, [] => ([], .ok ())
  | i, t :: rest =>
    match apnsSendFrame t alert o with
    | .error e => ([], .error e)
    | .ok frame =>
      if faults i then ([], .error .connectionError)
      else
        match bulkLoop faults alert o (i + 1) rest with
        | (tr, r) => (.write frame :: tr, r)

/-- `apns_send_bulk_message(registration_ids, data, **kwargs)`
(lines 121–130): one `_apns_create_socket(APNS_SOCKET)`, the send loop,
then `socket.close()` — which is only reached when the loop completes
without raising. -/
def apnsSendBulkMessage (st : Settings) (faults : Nat → Bool) (tokens : List Bytes)
    (alert : JValue) (o : SendOpts) : List Event × Except Err Unit :=
  match apnsCreateSocket st 0 with
  | (tr, .error e) => (tr, .error e)
  | (tr, .ok _) =>
    match bulkLoop faults alert o 0 tokens with
    | (tr2, .error e) => (tr ++ tr2, .error e)
    | (tr2, .ok _) => (tr ++ tr2 ++ [.close], .ok ())

/-- One feedback record as appended by `apns_get_feedback`: the decoded
timestamp (the code wraps it in `datetime.utcfromtimestamp`, which preserves
the value) and the 32 raw token bytes. -/
abbrev FeedbackRecord := Int × Bytes

/-- The `while True` loop of `apns_get_feedback` (lines 136–144).  The
incoming stream is modelled as the list of successive `socket.recv(38)`
results (`recv` returns at most 38 bytes, hence `take 38`; an exhausted
list models a closed connection, whose further reads return `b""`).  Only a
zero-length read breaks the loop; any other read is passed to
`_apns_unpack_feedback`, whose failure propagates out of the loop. -/
def feedbackLoop : List Bytes → List Event × Except Err (List FeedbackRecord)
  | [] => ([.recv []], .ok [])
  | c :: rest =>
    let d := c.take 38
    if d.length = 0 then ([.recv d], .ok [])
    else
      match apnsUnpackFeedback d with
      | .error e => ([.recv d, .decodeCall d], .error e)
      | .ok r =>
        match feedbackLoop rest with
        | (tr, .error e) => (.recv d :: .decodeCall d :: tr, .error e)
        | (tr, .ok rs) => (.recv d :: .decodeCall d :: tr, .ok (r :: rs))

/-- `apns_get_feedback()` (lines 133–146): create a socket to the feedback
endpoint, run the read loop, then `socket.close()` and return the decoded
records — the close is only reached when the loop breaks normally. -/
def apnsGetFeedback (st : Settings) (chunks : List Bytes) :
    List Event × Except Err (List FeedbackRecord) :=
  match apnsCreateSocket st 1 with
  | (tr, .error e) => (tr, .error e)
  | (tr, .ok _) =>
    match feedbackLoop chunks with
    | (tr2, .error e) => (tr ++ tr2, .error e)
    | (tr2, .ok rs) => (tr ++ tr2 ++ [.close], .ok rs)

/-! ## Whitespace freedom of the compact serialization -/

/-- A byte that is not JSON whitespace (space, tab, newline, carriage
return). -/
def wsFreeByte (b : Nat) : Bool :=
  b != 32 && b != 9 && b != 10 && b != 13

/-- A string containing no space byte (tab/newline/CR may occur: the
serializer escapes them). -/
def noSpace (s : Bytes) : Bool :=
  s.all (fun b => b != 32)

mutual
/-- All string literals (keys and values) inside a JSON value are free of
the space byte. -/
def strNoSpaceV : JValue → Bool
  | .jstr s => noSpace s
  | .jnat _ => true
  | .jarr xs => strNoSpaceL xs
  | .jobj kvs => strNoSpaceO kvs

/-- `strNoSpaceV` over a JSON list. -/
def strNoSpaceL : JList → Bool
  | .nil => true
  | .cons v rest => strNoSpaceV v && strNoSpaceL rest

/-- `strNoSpaceV` over a JSON object, keys included. -/
def strNoSpaceO : JObj → Bool
  | .nil => true
  | .cons k v rest => noSpace k && strNoSpaceV v && strNoSpaceO rest
end

/-- `noSpace` for an optional string argument. -/
def noSpaceOpt : Option Bytes → Bool
  | none => true
  | some s => noSpace s

/-- `strNoSpaceL` for an optional list argument. -/
def strNoSpaceLOpt : Option JList → Bool
  | none => true
  | some xs => strNoSpaceL xs

/-! ## Concrete fixtures used by witnesses and counterexamples -/

/-- Settings with a present, readable certificate. -/
def stOK : Settings := ⟨some [99], true⟩

/-- Settings with the certificate setting absent. -/
def stNoCert : Settings := ⟨none, true⟩

/-- Settings whose certificate file is unreadable. -/
def stUnreadable : Settings := ⟨some [99], false⟩

/-- A valid 64-hex-digit token (`"aa…a"`, decoding to 32 bytes `0xaa`). -/
def tok64 : Bytes := List.replicate 64 97

/-- An invalid token (`"zz"`): `unhexlify` raises on it. -/
def badTok : Bytes := asciiBytes "zz"

/-- A small alert string. -/
def alertHi : JValue := .jstr (asciiBytes "hi")

/-- An alert whose default-options payload serializes to exactly 256
bytes. -/
def alertFit : JValue := .jstr (List.replicate 220 97)

/-- An alert whose default-options payload serializes to 257 bytes. -/
def alertBig : JValue := .jstr (List.replicate 221 97)

/-- A well-formed 38-byte feedback record: timestamp `1700000000`
(`0x6553F100`), length field `32`, token = 32 bytes `0xAB`. -/
def fbRec : Bytes := [101, 83, 241, 0] ++ [0, 32] ++ List.replicate 32 171

/-- A second well-formed 38-byte feedback record: timestamp `7`, token = 32
bytes `0x01`. -/
def fbRec2 : Bytes := [0, 0, 0, 7] ++ [0, 32] ++ List.replicate 32 1

/-- Concrete options exercising the field rules: badge 3, default sound, the
content-available flag set, one localization key given, one extra field. -/
def opts9 : SendOpts :=
  ⟨3, chimeS, true, some (asciiBytes "OPEN"), none, none,
    .cons (asciiBytes "x") (.jnat 5) .nil⟩

/-! ## Helper lemmas -/

/-- `unhexlify` succeeds on an even-length all-hex string and yields half as
many bytes. -/
theorem unhexlify_ok_of_hex : ∀ (s : Bytes), s.length % 2 = 0 →
    (∀ c ∈ s, (hexDigitVal c).isSome = true) →
    ∃ bs, unhexlify s = Except.ok bs ∧ bs.length = s.length / 2
  | [], _, _ => ⟨[], rfl, rfl⟩
  | [_], h, _ => by simp at h
  | c1 :: c2 :: rest, h, hhex => by
    have h1 : (hexDigitVal c1).isSome = true := hhex c1 (by simp)
    have h2 : (hexDigitVal c2).isSome = true := hhex c2 (by simp)
    obtain ⟨v1, hv1⟩ := Option.isSome_iff_exists.mp h1
    obtain ⟨v2, hv2⟩ := Option.isSome_iff_exists.mp h2
    have hr : rest.length % 2 = 0 := by simp at h; omega
    obtain ⟨bs, hbs, hlen⟩ :=
      unhexlify_ok_of_hex rest hr (fun c hc => hhex c (by simp [hc]))
    refine ⟨(16 * v1 + v2) :: bs, ?_, ?_⟩
    · simp [unhexlify, hv1, hv2, hbs]
    · simp [hlen]; omega

/-- The only error `unhexlify` can raise is the `binascii` one. -/
theorem unhexlify_error : ∀ (s : Bytes) (e : Err),
    unhexlify s = Except.error e → e = Err.binasciiError
  | [], _, h => by simp [unhexlify] at h
  | [_], _, h => by
    simp only [unhexlify, Except.error.injEq] at h
    exact h.symm
  | c1 :: c2 :: rest, e, h => by
    simp only [unhexlify] at h
    cases hv1 : hexDigitVal c1 with
    | none => rw [hv1] at h; simp at h; exact h.symm
    | some v1 =>
      cases hv2 : hexDigitVal c2 with
      | none => rw [hv1, hv2] at h; simp at h; exact h.symm
      | some v2 =>
        rw [hv1, hv2] at h
        cases hr : unhexlify rest with
        | ok bs => rw [hr] at h; simp at h
        | error e2 =>
          rw [hr] at h
          simp only [Except.error.injEq] at h
          subst h
          exact unhexlify_error rest e2 hr

/-- `apnsPackMessage` cannot raise `APNSDataOverflow`: its only failure mode
is the hex decode. -/
theorem apnsPackMessage_ne_overflow (token data : Bytes) :
    apnsPackMessage token data ≠ Except.error Err.dataOverflow := by
  unfold apnsPackMessage
  cases h : unhexlify token with
  | ok tb => simp
  | error e =>
    have he := unhexlify_error token e h
    subst he
    simp

/-- A successful `_apns_create_socket` run: the canonical open trace. -/
theorem apnsCreateSocket_ok (st : Settings) (ty : Nat) (h : certOK st = true) :
    apnsCreateSocket st ty = ([.sockNew, .sslWrap, .connect ty], .ok ()) := by
  unfold certOK at h
  unfold apnsCreateSocket
  simp only [Bool.and_eq_true] at h
  simp [h.1, h.2]

/-! ## C7 -/

/-- C7: `_apns_unpack_feedback` on a buffer of exactly 38 bytes yields the
first 4 bytes read as a signed big-endian timestamp and the last 32 bytes as
the device token; on a buffer of fewer than 38 bytes `struct.unpack`
raises. -/
theorem C7_decode_feedback (data : Bytes) :
    (data.length = 38 →
      apnsUnpackFeedback data = .ok (beSigned32 (data.take 4), data.drop 6) ∧
      (data.drop 6).length = 32) ∧
    (data.length < 38 → apnsUnpackFeedback data = .error .structError) := by
  constructor
  · intro h
    refine ⟨by simp [apnsUnpackFeedback, h], by simp [h]⟩
  · intro h
    simp [apnsUnpackFeedback, Nat.ne_of_lt h]

/-- Witness for C7 at the spec's example: timestamp bytes for `1700000000`
and 32 token bytes `0xAB` decode to `(1700000000, 0xAB…AB)`; a 10-byte
buffer raises. -/
theorem C7_witness :
    apnsUnpackFeedback fbRec = .ok (beSigned32 (fbRec.take 4), fbRec.drop 6) ∧
    beSigned32 (fbRec.take 4) = 1700000000 ∧
    fbRec.drop 6 = List.replicate 32 171 ∧
    apnsUnpackFeedback (List.replicate 10 171) = .error .structError :=
  ⟨((C7_decode_feedback fbRec).1 (by decide)).1, by decide, by decide,
   (C7_decode_feedback (List.replicate 10 171)).2 (by decide)⟩

/-! ## C10 -/

/-- C10: the result of `_apns_unpack_feedback` depends only on bytes 0–3 and
6–37; two 38-byte buffers that agree there (hence may differ only in the
length field at offsets 4–5) decode identically. -/
theorem C10_length_field_ignored (l1 l2 : Bytes) (h1 : l1.length = 38)
    (h2 : l2.length = 38) (ht : l1.take 4 = l2.take 4)
    (htok : l1.drop 6 = l2.drop 6) :
    apnsUnpackFeedback l1 = apnsUnpackFeedback l2 := by
  simp [apnsUnpackFeedback, h1, h2, ht, htok]

/-- Witness for C10: two records equal except at offsets 4–5 (length fields
`32` and `0xFFFF`) decode to the same result. -/
theorem C10_witness :
    apnsUnpackFeedback ([0, 0, 0, 9] ++ [0, 32] ++ List.replicate 32 5) =
      apnsUnpackFeedback ([0, 0, 0, 9] ++ [255, 255] ++ List.replicate 32 5) :=
  C10_length_field_ignored _ _ (by decide) (by decide) (by decide) (by decide)

/-! ## C6 -/

/-- C6: for a 64-hex-digit token and a payload within the size limit,
`_apns_pack_message` produces exactly
`[0x00][0x0020 big-endian][32 raw token bytes][payload length, 2 bytes
big-endian][payload]`, of total size `1 + 2 + 32 + 2 + len(payload)`. -/
theorem C6_pack_frame (token data : Bytes) (h64 : token.length = 64)
    (hhex : ∀ c ∈ token, (hexDigitVal c).isSome = true)
    (hsize : data.length ≤ APNS_MAX_NOTIFICATION_SIZE) :
    exceptIsOk (unhexlify token) = true ∧
    ∀ tb, unhexlify token = .ok tb →
      tb.length = 32 ∧
      apnsPackMessage token data =
        .ok (0 :: 0 :: 32 :: (tb ++ data.length / 256 :: data.length % 256 :: data)) ∧
      (0 :: 0 :: 32 :: (tb ++ data.length / 256 :: data.length % 256 :: data)).length
        = 1 + 2 + 32 + 2 + data.length := by
  obtain ⟨bs, hbs, hlen⟩ :=
    unhexlify_ok_of_hex token (by omega) hhex
  rw [h64] at hlen
  constructor
  · simp [hbs, exceptIsOk]
  · intro tb htb
    rw [hbs] at htb
    obtain rfl : bs = tb := by simpa using htb
    have h32 : bs.length = 32 := by omega
    refine ⟨h32, ?_, by simp [h32]; omega⟩
    unfold apnsPackMessage
    rw [hbs]
    have hdiv : data.length / 256 % 256 = data.length / 256 :=
      Nat.mod_eq_of_lt (by unfold APNS_MAX_NOTIFICATION_SIZE at hsize; omega)
    simp [be16, pad32, h32, List.take_of_length_le (le_of_eq h32), hdiv]

/-- Witness for C6: the all-`a` token with payload `"{}"` packs to the
explicit 39-byte frame. -/
theorem C6_witness :
    exceptIsOk (unhexlify tok64) = true ∧
    (List.replicate 32 170).length = 32 ∧
    apnsPackMessage tok64 (asciiBytes "\x7b\x7d") =
      .ok (0 :: 0 :: 32 :: (List.replicate 32 170 ++ 2 / 256 :: 2 % 256 ::
        asciiBytes "\x7b\x7d")) :=
  have h := C6_pack_frame tok64 (asciiBytes "\x7b\x7d") (by decide) (by decide)
    (by decide)
  ⟨h.1, (h.2 (List.replicate 32 170) (by decide)).1,
   by
    have := (h.2 (List.replicate 32 170) (by decide)).2.1
    simpa using this⟩

/-! ## C5 -/

/-- C5: a serialized payload of exactly 256 bytes passes the size gate (the
send proceeds to packing and cannot raise `APNSDataOverflow`), while one
exceeding 256 bytes raises `APNSDataOverflow` before anything else: a single
send aborts with an empty event trace — no socket creation, no connect, no
write. -/
theorem C5_size_boundary (st : Settings) (fault0 : Bool) (token : Bytes)
    (alert : JValue) (o : SendOpts) :
    ((apsPayload alert o).length = 256 →
      apnsSendFrame token alert o = apnsPackMessage token (apsPayload alert o) ∧
      apnsSendFrame token alert o ≠ .error .dataOverflow) ∧
    ((apsPayload alert o).length > 256 →
      apnsSendFrame token alert o = .error .dataOverflow ∧
      apnsSendOne st fault0 token alert o = ([], .error .dataOverflow)) := by
  constructor
  · intro h
    have he : apnsSendFrame token alert o = apnsPackMessage token (apsPayload alert o) := by
      unfold apnsSendFrame APNS_MAX_NOTIFICATION_SIZE
      simp [h]
    exact ⟨he, by rw [he]; exact apnsPackMessage_ne_overflow _ _⟩
  · intro h
    have he : apnsSendFrame token alert o = .error .dataOverflow := by
      unfold apnsSendFrame APNS_MAX_NOTIFICATION_SIZE
      simp [h]
    exact ⟨he, by unfold apnsSendOne; rw [he]⟩

/-- Witness for C5 at the boundary: a 220-character alert gives a 256-byte
payload and is accepted; a 221-character alert gives 257 bytes and aborts
with `APNSDataOverflow` and an empty trace. -/
theorem C5_witness :
    (apsPayload alertFit defaultOpts).length = 256 ∧
    apnsSendFrame tok64 alertFit defaultOpts ≠ .error .dataOverflow ∧
    (apsPayload alertBig defaultOpts).length = 257 ∧
    apnsSendOne stOK false tok64 alertBig defaultOpts = ([], .error .dataOverflow) :=
  ⟨by decide,
   ((C5_size_boundary stOK false tok64 alertFit defaultOpts).1 (by decide)).2,
   by decide,
   ((C5_size_boundary stOK false tok64 alertBig defaultOpts).2 (by decide)).2⟩

/-! ## C2 -/

/-- C2 counterexample: with the certificate setting absent,
`_apns_create_socket` does raise `ImproperlyConfigured`, but only *after*
`sock = socket()` has already created a plain socket object (line 32
precedes the certificate check of lines 33–37) — refuting "before any
socket is created". -/
theorem C2_counterexample :
    (apnsCreateSocket stNoCert 0).2 = .error .improperlyConfigured ∧
    Event.sockNew ∈ (apnsCreateSocket stNoCert 0).1 := by
  decide

/-- C2 (amended): when the certificate setting is unset or the file is
unreadable, `_apns_create_socket` fails with `ImproperlyConfigured` before
any network I/O — no TLS wrap, no connect, no write, no read; the only
prior effect is the creation of the plain, unconnected socket object. -/
theorem C2_config_error_before_io (st : Settings) (ty : Nat)
    (h : certOK st = false) :
    (apnsCreateSocket st ty).2 = .error .improperlyConfigured ∧
    ∀ e ∈ (apnsCreateSocket st ty).1, e = Event.sockNew := by
  unfold certOK at h
  unfold apnsCreateSocket
  cases hc : certTruthy st.apnsCertificate with
  | false => simp
  | true =>
    rw [hc] at h
    simp only [Bool.true_and] at h
    simp [h]

/-- Witness for C2: with an unreadable certificate file, open fails with the
configuration error and performs no connect. -/
theorem C2_witness :
    (apnsCreateSocket stUnreadable 1).2 = .error .improperlyConfigured ∧
    Event.connect 1 ∉ (apnsCreateSocket stUnreadable 1).1 :=
  ⟨(C2_config_error_before_io stUnreadable 1 (by decide)).1,
   fun hmem => by
    have := (C2_config_error_before_io stUnreadable 1 (by decide)).2 _ hmem
    simp at this⟩

/-! ## C1 -/

/-- Every event the bulk loop itself emits is a frame write. -/
theorem bulkLoop_events (faults : Nat → Bool) (alert : JValue) (o : SendOpts) :
    ∀ (tokens : List Bytes) (i : Nat),
      ∀ e ∈ (bulkLoop faults alert o i tokens).1, ∃ f, e = Event.write f
  | [], _, e, he => by simp [bulkLoop] at he
  | t :: rest, i, e, he => by
    unfold bulkLoop at he
    cases hf : apnsSendFrame t alert o with
    | error e2 => rw [hf] at he; simp at he
    | ok frame =>
      rw [hf] at he
      by_cases hfa : faults i
      · simp [hfa] at he
      · simp only [hfa, if_false, Bool.false_eq_true] at he
        rcases List.mem_cons.mp he with h | h
        · exact ⟨frame, h⟩
        · exact bulkLoop_events faults alert o rest (i + 1) e h

/-- An event list all of whose members are writes contains no occurrence of
a non-write event. -/
theorem count_zero_of_all_writes (l : List Event)
    (hl : ∀ e ∈ l, ∃ f, e = Event.write f) (x : Event)
    (hx : ∀ f, x ≠ Event.write f) : l.count x = 0 := by
  refine List.count_eq_zero.mpr (fun hmem => ?_)
  obtain ⟨f, hf⟩ := hl x hmem
  exact hx f hf

/-- C1 counterexample: a bulk send over a valid then an invalid token (the
second token is not hex, so its encode raises mid-batch) opens the channel
— exactly one connect — but the trace contains **no** close: the error
propagates to the caller with the channel still open, refuting the
guaranteed-release part of the claim. -/
theorem C1_counterexample :
    exceptIsOk (apnsSendBulkMessage stOK (fun _ => false) [tok64, badTok]
      alertHi defaultOpts).2 = false ∧
    (apnsSendBulkMessage stOK (fun _ => false) [tok64, badTok]
      alertHi defaultOpts).1.count (Event.connect 0) = 1 ∧
    (apnsSendBulkMessage stOK (fun _ => false) [tok64, badTok]
      alertHi defaultOpts).1.count Event.close = 0 := by
  decide

/-- C1 (amended): whenever the channel opens, `apns_send_bulk_message`
creates exactly one socket and connects exactly once; if the whole batch
encodes and writes successfully, the channel is closed exactly once, as the
final action after the full iteration; but if encoding or writing fails for
some token, the error propagates to the caller without the channel being
closed. -/
theorem C1_bulk_single_channel (st : Settings) (faults : Nat → Bool)
    (tokens : List Bytes) (alert : JValue) (o : SendOpts)
    (hok : certOK st = true) :
    (apnsSendBulkMessage st faults tokens alert o).1.count Event.sockNew = 1 ∧
    (apnsSendBulkMessage st faults tokens alert o).1.count (Event.connect 0) = 1 ∧
    (∀ u, (apnsSendBulkMessage st faults tokens alert o).2 = .ok u →
      (apnsSendBulkMessage st faults tokens alert o).1.count Event.close = 1 ∧
      (apnsSendBulkMessage st faults tokens alert o).1.getLast? = some Event.close) ∧
    (∀ e, (apnsSendBulkMessage st faults tokens alert o).2 = .error e →
      (apnsSendBulkMessage st faults tokens alert o).1.count Event.close = 0) := by
  have hopen := apnsCreateSocket_ok st 0 hok
  have hwrites := bulkLoop_events faults alert o tokens 0
  unfold apnsSendBulkMessage
  rw [hopen]
  cases hloop : bulkLoop faults alert o 0 tokens with
  | mk tr2 r2 =>
    rw [hloop] at hwrites
    simp only at hwrites
    have hsock : tr2.count Event.sockNew = 0 :=
      count_zero_of_all_writes tr2 hwrites _ (fun f h => by cases h)
    have hconn : tr2.count (Event.connect 0) = 0 :=
      count_zero_of_all_writes tr2 hwrites _ (fun f h => by cases h)
    have hclose : tr2.count Event.close = 0 :=
      count_zero_of_all_writes tr2 hwrites _ (fun f h => by cases h)
    cases r2 with
    | error e2 =>
      refine ⟨?_, ?_, ?_, ?_⟩
      · simp [List.count_append, hsock]
      · simp [List.count_append, hconn]
      · intro u hu; simp at hu
      · intro e he; simp [List.count_append, hclose]
    | ok u2 =>
      refine ⟨?_, ?_, ?_, ?_⟩
      · simp [List.count_append, hsock]
      · simp [List.count_append, hconn]
      · intro u hu
        constructor
        · simp [List.count_append, hclose]
        · dsimp only
          rw [show [Event.sockNew, Event.sslWrap, Event.connect 0] ++ tr2 ++ [Event.close]
              = ([Event.sockNew, Event.sslWrap, Event.connect 0] ++ tr2) ++ [Event.close] by simp]
          exact List.getLast?_concat _
      · intro e he; simp at he

/-- Witness for C1: a successful two-token bulk send opens one channel and
closes it exactly once, the close being the final event. -/
theorem C1_witness :
    (apnsSendBulkMessage stOK (fun _ => false) [tok64, tok64]
      alertHi defaultOpts).1.count (Event.connect 0) = 1 ∧
    (apnsSendBulkMessage stOK (fun _ => false) [tok64, tok64]
      alertHi defaultOpts).1.count Event.close = 1 ∧
    (apnsSendBulkMessage stOK (fun _ => false) [tok64, tok64]
      alertHi defaultOpts).1.getLast? = some Event.close :=
  have h := C1_bulk_single_channel stOK (fun _ => false) [tok64, tok64]
    alertHi defaultOpts (by decide)
  ⟨h.2.1, (h.2.2.1 () (by decide)).1, (h.2.2.1 () (by decide)).2⟩

/-! ## The feedback loop: helper lemmas -/

/-- The read loop on a stream of well-formed 38-byte records followed by a
zero-length read: every record is received and decoded in order, and the
loop ends successfully. -/
theorem feedbackLoop_records : ∀ (records : List Bytes),
    (∀ r ∈ records, r.length = 38) →
    feedbackLoop (records ++ [[]]) =
      ((records.map fun r => [Event.recv r, Event.decodeCall r]).flatten
        ++ [Event.recv []],
       .ok (records.map fun r => (beSigned32 (r.take 4), r.drop 6)))
  | [], _ => by simp [feedbackLoop]
  | r :: rest, h => by
    have hr : r.length = 38 := h r (by simp)
    have htake : r.take 38 = r := List.take_of_length_le (by omega)
    have ih := feedbackLoop_records rest (fun x hx => h x (by simp [hx]))
    have hdec : apnsUnpackFeedback r = .ok (beSigned32 (r.take 4), r.drop 6) := by
      simp [apnsUnpackFeedback, hr]
    simp [feedbackLoop, htake, hr, hdec, ih]

/-- The read loop on a first chunk that is non-empty but shorter than 38
bytes: the chunk is passed to `_apns_unpack_feedback`, which raises, and the
loop aborts with that error. -/
theorem feedbackLoop_short (c : Bytes) (rest : List Bytes) (hne : c ≠ [])
    (hlt : c.length < 38) :
    feedbackLoop (c :: rest) = ([.recv c, .decodeCall c], .error .structError) := by
  have htake : c.take 38 = c := List.take_of_length_le (by omega)
  have hlen0 : c.length ≠ 0 := fun h0 => hne (List.length_eq_zero.mp h0)
  have hdec : apnsUnpackFeedback c = .error .structError := by
    simp [apnsUnpackFeedback, Nat.ne_of_lt hlt]
  simp [feedbackLoop, htake, hlen0, hdec]

/-- `close` never occurs among the recv/decode events of the read loop. -/
theorem close_notin_loop_events (records : List Bytes) :
    Event.close ∉ (records.map fun r => [Event.recv r, Event.decodeCall r]).flatten := by
  intro h
  rw [List.mem_flatten] at h
  obtain ⟨l, hl, hmem⟩ := h
  obtain ⟨r, _, rfl⟩ := List.mem_map.mp hl
  simp at hmem

/-! ## C3 -/

/-- C3 counterexample: against a stream whose first `recv` yields only 10
bytes, `apns_get_feedback` passes that 10-byte buffer straight to
`_apns_unpack_feedback` — refuting "never passes a read result of fewer than
38 bytes to decode_feedback". -/
theorem C3_counterexample :
    Event.decodeCall (List.replicate 10 0) ∈
      (apnsGetFeedback stOK [List.replicate 10 0]).1 ∧
    (List.replicate 10 0).length < 38 := by
  decide

/-- C3 (amended): the reader issues one `recv` of *up to* 38 bytes per
record and treats only a zero-length read as end-of-stream; a non-empty read
shorter than 38 bytes is not treated as end-of-stream but passed to
`_apns_unpack_feedback`, which raises the decode (struct) error. -/
theorem C3_short_read_decoded (st : Settings) (c : Bytes) (rest : List Bytes)
    (hok : certOK st = true) (hne : c ≠ []) (hshort : c.length < 38) :
    (Event.decodeCall c ∈ (apnsGetFeedback st (c :: rest)).1 ∧
     (apnsGetFeedback st (c :: rest)).2 = .error .structError) ∧
    ((apnsGetFeedback st ([] :: rest)).2 = .ok [] ∧
     ∀ d, Event.decodeCall d ∉ (apnsGetFeedback st ([] :: rest)).1) := by
  have hopen := apnsCreateSocket_ok st 1 hok
  constructor
  · unfold apnsGetFeedback
    rw [hopen, feedbackLoop_short c rest hne hshort]
    exact ⟨by simp, rfl⟩
  · unfold apnsGetFeedback
    rw [hopen]
    have hz : feedbackLoop ([] :: rest) = ([.recv []], .ok []) := by
      simp [feedbackLoop]
    rw [hz]
    refine ⟨rfl, ?_⟩
    intro d hd
    simp at hd

/-- Witness for C3 at a concrete short chunk. -/
theorem C3_witness :
    Event.decodeCall [1, 2, 3] ∈ (apnsGetFeedback stOK [[1, 2, 3]]).1 ∧
    (apnsGetFeedback stOK [[1, 2, 3]]).2 = .error .structError ∧
    (apnsGetFeedback stOK [[]]).2 = .ok [] :=
  have h := C3_short_read_decoded stOK [1, 2, 3] [] (by decide) (by decide)
    (by decide)
  ⟨h.1.1, h.1.2, h.2.1⟩

/-! ## C4 -/

/-- C4 counterexample: against a stream whose first `recv` yields 4 bytes,
the decode raises and `apns_get_feedback` propagates the error with **no**
close in the trace (line 145's `socket.close()` is never reached) — refuting
"closes its channel … on a read/decode error". -/
theorem C4_counterexample :
    exceptIsOk (apnsGetFeedback stOK [[0, 0, 0, 0]]).2 = false ∧
    (apnsGetFeedback stOK [[0, 0, 0, 0]]).1.count Event.close = 0 := by
  decide

/-- C4 (amended): on a well-formed stream (38-byte records then a zero-length
read) `apns_get_feedback` closes the channel exactly once, after the loop,
before returning; but on a decode error the error propagates to the caller
without the channel being closed. -/
theorem C4_feedback_close (st : Settings) (hok : certOK st = true) :
    (∀ records : List Bytes, (∀ r ∈ records, r.length = 38) →
      (apnsGetFeedback st (records ++ [[]])).1.count Event.close = 1 ∧
      exceptIsOk (apnsGetFeedback st (records ++ [[]])).2 = true) ∧
    (∀ (c : Bytes) (rest : List Bytes), c ≠ [] → c.length < 38 →
      (apnsGetFeedback st (c :: rest)).1.count Event.close = 0 ∧
      exceptIsOk (apnsGetFeedback st (c :: rest)).2 = false) := by
  have hopen := apnsCreateSocket_ok st 1 hok
  constructor
  · intro records hlen
    unfold apnsGetFeedback
    rw [hopen, feedbackLoop_records records hlen]
    have hz : ((records.map fun r => [Event.recv r, Event.decodeCall r]).flatten).count
        Event.close = 0 :=
      List.count_eq_zero.mpr (close_notin_loop_events records)
    constructor
    · dsimp only
      simp [List.count_append, hz]
    · rfl
  · intro c rest hne hshort
    unfold apnsGetFeedback
    rw [hopen, feedbackLoop_short c rest hne hshort]
    exact ⟨by simp, rfl⟩

/-- Witness for C4: one well-formed record then stream end — exactly one
close; a 5-byte first read — an error outcome and no close. -/
theorem C4_witness :
    (apnsGetFeedback stOK ([fbRec] ++ [[]])).1.count Event.close = 1 ∧
    exceptIsOk (apnsGetFeedback stOK ([fbRec] ++ [[]])).2 = true ∧
    (apnsGetFeedback stOK [[9, 9, 9, 9, 9]]).1.count Event.close = 0 :=
  have h := C4_feedback_close stOK (by decide)
  ⟨(h.1 [fbRec] (by decide)).1, (h.1 [fbRec] (by decide)).2,
   (h.2 [9, 9, 9, 9, 9] [] (by decide) (by decide)).1⟩

/-! ## C8 -/

/-- C8: against a stream of `k` 38-byte records followed by a zero-length
read, `apns_get_feedback` returns the `k` decoded records in read order; in
particular an immediately-closing stream yields the empty sequence. -/
theorem C8_feedback_records (st : Settings) (records : List Bytes)
    (hok : certOK st = true) (hlen : ∀ r ∈ records, r.length = 38) :
    (apnsGetFeedback st (records ++ [[]])).2 =
      .ok (records.map fun r => (beSigned32 (r.take 4), r.drop 6)) ∧
    ∀ rs, (apnsGetFeedback st (records ++ [[]])).2 = .ok rs →
      rs.length = records.length := by
  have hopen := apnsCreateSocket_ok st 1 hok
  unfold apnsGetFeedback
  rw [hopen, feedbackLoop_records records hlen]
  refine ⟨rfl, ?_⟩
  intro rs hrs
  simp only [Except.ok.injEq] at hrs
  subst hrs
  simp

/-- Witness for C8: two concrete records decode in stream order to a
2-element sequence; the immediately-closed stream gives `[]`. -/
theorem C8_witness :
    (apnsGetFeedback stOK ([fbRec, fbRec2] ++ [[]])).2 =
      .ok [(1700000000, List.replicate 32 171), (7, List.replicate 32 1)] ∧
    (apnsGetFeedback stOK (([] : List Bytes) ++ [[]])).2 = .ok [] :=
  have h2 := C8_feedback_records stOK [fbRec, fbRec2] (by decide) (by decide)
  have h0 := C8_feedback_records stOK [] (by decide) (by decide)
  ⟨by rw [h2.1]; decide, by rw [h0.1]; rfl⟩

/-! ## C9: whitespace freedom of the serialized payload -/

/-- Hex digits emitted inside `\uXXXX` escapes are never whitespace. -/
theorem hexUDigit_wsFree (n : Nat) : wsFreeByte (hexUDigit n) = true := by
  unfold hexUDigit wsFreeByte
  split <;> simp only [Bool.and_eq_true, bne_iff_ne, ne_eq] <;> omega

/-- `\uXXXX` escapes contain no whitespace byte. -/
theorem escU_wsFree (c : Nat) : (escU c).all wsFreeByte = true := by
  simp only [escU, List.all_cons, List.all_nil, hexUDigit_wsFree, Bool.and_true,
    Bool.true_and]
  decide

/-- The rendering of any non-space character contains no whitespace byte:
space never occurs (the character is not a space), and tab / newline /
carriage return are escaped. -/
theorem escChar_wsFree (c : Nat) (hc : c ≠ 32) : (escChar c).all wsFreeByte = true := by
  unfold escChar
  split_ifs with h1 h2 h3 h4 h5 h6 h7 h8 h9
  · decide
  · decide
  · decide
  · decide
  · decide
  · decide
  · decide
  · exact escU_wsFree c
  · simp only [List.all_cons, List.all_nil, Bool.and_true, wsFreeByte,
      Bool.and_eq_true, bne_iff_ne, ne_eq]
    omega
  · exact escU_wsFree c

/-- Concatenation of whitespace-free pieces is whitespace-free. -/
theorem flatten_all_of (p : Nat → Bool) : ∀ (ls : List Bytes),
    (∀ l ∈ ls, l.all p = true) → ls.flatten.all p = true
  | [], _ => rfl
  | l :: rest, h => by
    rw [List.flatten_cons, List.all_append]
    simp only [Bool.and_eq_true]
    exact ⟨h l (by simp), flatten_all_of p rest (fun x hx => h x (by simp [hx]))⟩

/-- A string literal with no space byte serializes without whitespace. -/
theorem jstringSer_wsFree (s : Bytes) (hs : noSpace s = true) :
    (jstringSer s).all wsFreeByte = true := by
  unfold jstringSer
  have hf : ((s.map escChar).flatten).all wsFreeByte = true := by
    refine flatten_all_of _ _ ?_
    intro l hl
    obtain ⟨c, hcmem, rfl⟩ := List.mem_map.mp hl
    have hc : c ≠ 32 := by
      have := List.all_eq_true.mp hs c hcmem
      simpa using this
    exact escChar_wsFree c hc
  simp only [List.all_cons, List.all_append, List.all_nil, hf, Bool.and_true,
    Bool.true_and]
  decide

/-- Every byte produced by the decimal printer is an ASCII digit. -/
theorem natDigitsCore_digits : ∀ (fuel n : Nat) (acc : Bytes),
    (∀ b ∈ acc, 48 ≤ b ∧ b ≤ 57) →
    ∀ b ∈ natDigitsCore fuel n acc, 48 ≤ b ∧ b ≤ 57
  | 0, _, _, h => h
  | fuel + 1, n, acc, h => by
    unfold natDigitsCore
    split
    · intro b hb
      rcases List.mem_cons.mp hb with rfl | hb2
      · constructor <;> omega
      · exact h b hb2
    · exact natDigitsCore_digits fuel (n / 10) _ (fun b hb => by
        rcases List.mem_cons.mp hb with rfl | hb2
        · constructor <;> omega
        · exact h b hb2)

/-- Integers serialize without whitespace. -/
theorem natDigits_wsFree (n : Nat) : (natDigits n).all wsFreeByte = true := by
  refine List.all_eq_true.mpr fun b hb => ?_
  have hd := natDigitsCore_digits (n + 1) n [] (by simp) b hb
  simp only [wsFreeByte, Bool.and_eq_true, bne_iff_ne, ne_eq]
  omega

mutual
/-- Compact serialization of a value whose strings are space-free contains
no whitespace byte at all. -/
theorem jser_wsFree_v : ∀ (v : JValue), strNoSpaceV v = true →
    (jserialize v).all wsFreeByte = true
  | .jstr s, h => jstringSer_wsFree s h
  | .jnat n, _ => natDigits_wsFree n
  | .jarr xs, h => by
    have ih := jser_wsFree_arr xs h
    simp only [jserialize, List.all_cons, List.all_append, List.all_nil, ih,
      Bool.and_true, Bool.true_and]
    decide
  | .jobj kvs, h => by
    have ih := jser_wsFree_obj kvs h
    simp only [jserialize, List.all_cons, List.all_append, List.all_nil, ih,
      Bool.and_true, Bool.true_and]
    decide

/-- As `jser_wsFree_v`, for comma-joined array elements. -/
theorem jser_wsFree_arr : ∀ (xs : JList), strNoSpaceL xs = true →
    (jserializeArr xs).all wsFreeByte = true
  | .nil, _ => rfl
  | .cons v .nil, h => by
    have hv : strNoSpaceV v = true := by
      simp only [strNoSpaceL, Bool.and_eq_true] at h
      exact h.1
    exact jser_wsFree_v v hv
  | .cons v (.cons w rest), h => by
    simp only [strNoSpaceL, Bool.and_eq_true] at h
    have ihv := jser_wsFree_v v h.1
    have ih := jser_wsFree_arr (.cons w rest) (by
      simp only [strNoSpaceL, Bool.and_eq_true]
      exact h.2)
    simp only [jserializeArr, List.all_append, List.all_cons, ihv, ih,
      Bool.and_true, Bool.true_and]
    decide

/-- As `jser_wsFree_v`, for `key:value` object entries. -/
theorem jser_wsFree_obj : ∀ (kvs : JObj), strNoSpaceO kvs = true →
    (jserializeObj kvs).all wsFreeByte = true
  | .nil, _ => rfl
  | .cons k v .nil, h => by
    simp only [strNoSpaceO, Bool.and_eq_true] at h
    have ihk := jstringSer_wsFree k h.1.1
    have ihv := jser_wsFree_v v h.1.2
    simp only [jserializeObj, List.all_append, List.all_cons, List.all_nil,
      ihk, ihv, Bool.and_true, Bool.true_and]
    decide
  | .cons k v (.cons k2 v2 rest), h => by
    simp only [strNoSpaceO, Bool.and_eq_true] at h
    have ihk := jstringSer_wsFree k h.1.1
    have ihv := jser_wsFree_v v h.1.2
    have ih := jser_wsFree_obj (.cons k2 v2 rest) (by
      simp only [strNoSpaceO, Bool.and_eq_true]
      exact h.2)
    simp only [jserializeObj, List.all_append, List.all_cons, List.all_nil,
      ihk, ihv, ih, Bool.and_true, Bool.true_and]
    decide
end

/-- `setKey` preserves space-freedom. -/
theorem strNoSpaceO_setKey : ∀ (d : JObj) (k : Bytes) (v : JValue),
    strNoSpaceO d = true → noSpace k = true → strNoSpaceV v = true →
    strNoSpaceO (d.setKey k v) = true
  | .nil, k, v, _, hk, hv => by
    simp [JObj.setKey, strNoSpaceO, hk, hv]
  | .cons k0 v0 rest, k, v, hd, hk, hv => by
    simp only [strNoSpaceO, Bool.and_eq_true] at hd
    unfold JObj.setKey
    split
    · simp [strNoSpaceO, hd.1.1, hv, hd.2]
    · simp [strNoSpaceO, hd.1.1, hd.1.2,
        strNoSpaceO_setKey rest k v hd.2 hk hv]

/-- `update` preserves space-freedom. -/
theorem strNoSpaceO_update : ∀ (ext d : JObj),
    strNoSpaceO d = true → strNoSpaceO ext = true →
    strNoSpaceO (d.update ext) = true
  | .nil, _, hd, _ => hd
  | .cons k v rest, d, hd, hext => by
    simp only [strNoSpaceO, Bool.and_eq_true] at hext
    exact strNoSpaceO_update rest _
      (strNoSpaceO_setKey d k v hd hext.1.1 hext.1.2) hext.2

/-- `condObj` preserves space-freedom. -/
theorem strNoSpaceO_condObj (b : Bool) (k : Bytes) (v : JValue) (rest : JObj)
    (hk : noSpace k = true) (hv : strNoSpaceV v = true)
    (hr : strNoSpaceO rest = true) : strNoSpaceO (condObj b k v rest) = true := by
  unfold condObj
  split
  · simp [strNoSpaceO, hk, hv, hr]
  · exact hr

/-- `consOptStr` preserves space-freedom. -/
theorem strNoSpaceO_consOptStr (k : Bytes) (v : Option Bytes) (rest : JObj)
    (hk : noSpace k = true) (hv : noSpaceOpt v = true)
    (hr : strNoSpaceO rest = true) : strNoSpaceO (consOptStr k v rest) = true := by
  cases v with
  | none => exact hr
  | some s =>
    simp only [consOptStr]
    split
    · exact hr
    · simp only [noSpaceOpt] at hv
      simp [strNoSpaceO, hk, hr, strNoSpaceV, hv]

/-- `consOptArr` preserves space-freedom. -/
theorem strNoSpaceO_consOptArr (k : Bytes) (v : Option JList) (rest : JObj)
    (hk : noSpace k = true) (hv : strNoSpaceLOpt v = true)
    (hr : strNoSpaceO rest = true) : strNoSpaceO (consOptArr k v rest) = true := by
  cases v with
  | none => exact hr
  | some xs =>
    cases xs with
    | nil => exact hr
    | cons w ws =>
      simp only [strNoSpaceLOpt] at hv
      simp only [consOptArr]
      simp [strNoSpaceO, hk, hr, strNoSpaceV, hv]

/-- `buildAlert` preserves space-freedom. -/
theorem strNoSpaceV_buildAlert (alert : JValue) (o : SendOpts)
    (ha : strNoSpaceV alert = true) (h1 : noSpaceOpt o.actionLocKey = true)
    (h2 : noSpaceOpt o.locKey = true) (h3 : strNoSpaceLOpt o.locArgs = true) :
    strNoSpaceV (buildAlert alert o) = true := by
  unfold buildAlert
  split
  · show strNoSpaceO (wrappedAlert alert o) = true
    unfold wrappedAlert
    simp only [strNoSpaceO, Bool.and_eq_true]
    refine ⟨⟨by decide, ha⟩, ?_⟩
    exact strNoSpaceO_consOptStr _ _ _ (by decide) h1
      (strNoSpaceO_consOptStr _ _ _ (by decide) h2
        (strNoSpaceO_consOptArr _ _ _ (by decide) h3 rfl))
  · exact ha

/-- The whole `data` dict built by `_apns_send` is space-free when its
inputs are. -/
theorem strNoSpaceO_buildData (alert : JValue) (o : SendOpts)
    (ha : strNoSpaceV alert = true) (hsound : noSpace o.sound = true)
    (h1 : noSpaceOpt o.actionLocKey = true) (h2 : noSpaceOpt o.locKey = true)
    (h3 : strNoSpaceLOpt o.locArgs = true) (hx : strNoSpaceO o.extra = true) :
    strNoSpaceO (buildData alert o) = true := by
  unfold buildData
  refine strNoSpaceO_update o.extra _ ?_ hx
  simp only [strNoSpaceO, Bool.and_eq_true]
  refine ⟨⟨by decide, strNoSpaceV_buildAlert alert o ha h1 h2 h3⟩, ?_⟩
  exact strNoSpaceO_condObj _ _ _ _ (by decide) rfl
    (strNoSpaceO_condObj _ _ _ _ (by decide) hsound
      (strNoSpaceO_condObj _ _ _ _ (by decide) rfl rfl))

/-! ## C9: lookups through the dict construction -/

/-- Setting a different key leaves a lookup unchanged. -/
theorem JObj.lookup_setKey_ne : ∀ (d : JObj) (k' : Bytes) (v : JValue) (key : Bytes),
    k' ≠ key → (d.setKey k' v).lookup key = d.lookup key
  | .nil, k', v, key, h => by
    simp [JObj.setKey, JObj.lookup, h]
  | .cons k0 v0 rest, k', v, key, h => by
    unfold JObj.setKey
    by_cases he : k0 = k'
    · rw [if_pos he]
      have hk0 : k0 ≠ key := by rw [he]; exact h
      simp [JObj.lookup, hk0]
    · rw [if_neg he]
      unfold JObj.lookup
      by_cases hk : k0 = key
      · simp [hk]
      · simp [hk, JObj.lookup_setKey_ne rest k' v key h]

/-- `update` with a dict whose keys avoid `key` leaves `key`'s lookup
unchanged. -/
theorem JObj.lookup_update_notin : ∀ (ext d : JObj) (key : Bytes),
    key ∉ ext.keys → (d.update ext).lookup key = d.lookup key
  | .nil, _, _, _ => rfl
  | .cons k v rest, d, key, h => by
    simp only [JObj.keys, List.mem_cons, not_or] at h
    unfold JObj.update
    rw [JObj.lookup_update_notin rest _ key h.2]
    exact JObj.lookup_setKey_ne d k v key (fun he => h.1 he.symm)

/-- A key different from `consOptStr`'s own key is in the result iff it is
in the tail. -/
theorem keys_consOptStr_other (k : Bytes) (v : Option Bytes) (rest : JObj)
    (key : Bytes) (hne : key ≠ k) :
    (key ∈ (consOptStr k v rest).keys) ↔ key ∈ rest.keys := by
  cases v with
  | none => exact Iff.rfl
  | some s =>
    simp only [consOptStr]
    split
    · exact Iff.rfl
    · simp [JObj.keys, hne]

/-- `consOptStr`'s own key is present iff its optional value is truthy
(given the tail does not contain it). -/
theorem keys_consOptStr_self (k : Bytes) (v : Option Bytes) (rest : JObj)
    (hk : k ∉ rest.keys) :
    (k ∈ (consOptStr k v rest).keys) ↔ truthyOpt v = true := by
  cases v with
  | none => simp [consOptStr, truthyOpt, hk]
  | some s =>
    simp only [consOptStr, truthyOpt]
    by_cases hs : s.isEmpty
    · simp [hs, hk]
    · simp [hs, JObj.keys]

/-- As `keys_consOptStr_other`, for `consOptArr`. -/
theorem keys_consOptArr_other (k : Bytes) (v : Option JList) (rest : JObj)
    (key : Bytes) (hne : key ≠ k) :
    (key ∈ (consOptArr k v rest).keys) ↔ key ∈ rest.keys := by
  cases v with
  | none => exact Iff.rfl
  | some xs =>
    cases xs with
    | nil => exact Iff.rfl
    | cons w ws => simp [consOptArr, JObj.keys, hne]

/-- As `keys_consOptStr_self`, for `consOptArr` and list truthiness. -/
theorem keys_consOptArr_self (k : Bytes) (v : Option JList) (rest : JObj)
    (hk : k ∉ rest.keys) :
    (k ∈ (consOptArr k v rest).keys) ↔ truthyList v = true := by
  cases v with
  | none => simp [consOptArr, truthyList, hk]
  | some xs =>
    cases xs with
    | nil => simp [consOptArr, truthyList, hk]
    | cons w ws => simp [consOptArr, truthyList, JObj.keys]

/-- A lookup of a different key passes through `condObj` unchanged. -/
theorem lookup_condObj_other (b : Bool) (k : Bytes) (v : JValue) (rest : JObj)
    (key : Bytes) (hne : k ≠ key) :
    (condObj b k v rest).lookup key = rest.lookup key := by
  by_cases hb : b
  · simp [condObj, hb, JObj.lookup, hne]
  · simp [condObj, hb]

/-- Looking up `condObj`'s own key yields its value exactly when the guard
holds (given the tail does not contain it). -/
theorem lookup_condObj_self (b : Bool) (k : Bytes) (v : JValue) (rest : JObj)
    (hk : rest.lookup k = none) :
    (condObj b k v rest).lookup k = if b then some v else none := by
  by_cases hb : b
  · simp [condObj, hb, JObj.lookup]
  · simp [condObj, hb, hk]

/-- C9: in the `aps` payload object built by `_apns_send` (with extra fields
not colliding with the reserved keys, as the spec leaves to the caller):
the `alert` entry is the wrapped `{"body": …}` object exactly when at least
one localization argument is given a truthy (non-`None`, non-empty) value
and is the alert as-is otherwise, and the wrapped object carries exactly the
truthy localization sub-fields; `badge` appears iff non-zero, `sound` iff
non-empty, `content-available` (as integer `1`) iff the flag is set; and the
payload serialization is compact: when no input string contains a space
byte, the serialized payload contains no whitespace byte at all — the only
separators are `,` and `:`. -/
theorem C9_payload_field_rules (alert : JValue) (o : SendOpts)
    (hx1 : alertK ∉ o.extra.keys) (hx2 : badgeK ∉ o.extra.keys)
    (hx3 : soundK ∉ o.extra.keys) (hx4 : contentAvailableK ∉ o.extra.keys)
    (ha : strNoSpaceV alert = true) (hsound : noSpace o.sound = true)
    (hk1 : noSpaceOpt o.actionLocKey = true) (hk2 : noSpaceOpt o.locKey = true)
    (hk3 : strNoSpaceLOpt o.locArgs = true) (hxs : strNoSpaceO o.extra = true) :
    ((buildData alert o).lookup alertK =
      some (if anyLocTruthy o then .jobj (wrappedAlert alert o) else alert)) ∧
    ((wrappedAlert alert o).lookup bodyK = some alert) ∧
    (actionLocKeyK ∈ (wrappedAlert alert o).keys ↔ truthyOpt o.actionLocKey = true) ∧
    (locKeyK ∈ (wrappedAlert alert o).keys ↔ truthyOpt o.locKey = true) ∧
    (locArgsK ∈ (wrappedAlert alert o).keys ↔ truthyList o.locArgs = true) ∧
    ((buildData alert o).lookup badgeK =
      if o.badge != 0 then some (.jnat o.badge) else none) ∧
    ((buildData alert o).lookup soundK =
      if o.sound.isEmpty then none else some (.jstr o.sound)) ∧
    ((buildData alert o).lookup contentAvailableK =
      if o.contentAvailable then some (.jnat 1) else none) ∧
    ((apsPayload alert o).all wsFreeByte = true) := by
  have d12 : alertK ≠ badgeK := by decide
  have d13 : alertK ≠ soundK := by decide
  have d14 : alertK ≠ contentAvailableK := by decide
  have d23 : badgeK ≠ soundK := by decide
  have d24 : badgeK ≠ contentAvailableK := by decide
  have d34 : soundK ≠ contentAvailableK := by decide
  have e12 : actionLocKeyK ≠ bodyK := by decide
  have e13 : locKeyK ≠ bodyK := by decide
  have e14 : locArgsK ≠ bodyK := by decide
  have e23 : actionLocKeyK ≠ locKeyK := by decide
  have e24 : actionLocKeyK ≠ locArgsK := by decide
  have e34 : locKeyK ≠ locArgsK := by decide
  have hbase : ∀ key : Bytes, key ∉ o.extra.keys →
      (buildData alert o).lookup key =
        (JObj.cons alertK (buildAlert alert o)
          (condObj (o.badge != 0) badgeK (.jnat o.badge)
            (condObj (!o.sound.isEmpty) soundK (.jstr o.sound)
              (condObj o.contentAvailable contentAvailableK (.jnat 1) .nil)))).lookup key := by
    intro key hnot
    unfold buildData
    exact JObj.lookup_update_notin o.extra _ key hnot
  refine ⟨?_, ?_, ?_, ?_, ?_, ?_, ?_, ?_, ?_⟩
  · rw [hbase alertK hx1]
    simp [JObj.lookup, buildAlert]
  · simp [wrappedAlert, JObj.lookup]
  · have hnot : actionLocKeyK ∉
        (consOptStr locKeyK o.locKey (consOptArr locArgsK o.locArgs .nil)).keys := by
      rw [keys_consOptStr_other _ _ _ _ e23, keys_consOptArr_other _ _ _ _ e24]
      simp [JObj.keys]
    unfold wrappedAlert
    simp only [JObj.keys, List.mem_cons]
    rw [keys_consOptStr_self _ _ _ hnot]
    simp [e12]
  · have hnot : locKeyK ∉ (consOptArr locArgsK o.locArgs (.nil : JObj)).keys := by
      rw [keys_consOptArr_other _ _ _ _ e34]
      simp [JObj.keys]
    unfold wrappedAlert
    simp only [JObj.keys, List.mem_cons]
    rw [keys_consOptStr_other _ _ _ _ e23.symm, keys_consOptStr_self _ _ _ hnot]
    simp [e13]
  · unfold wrappedAlert
    simp only [JObj.keys, List.mem_cons]
    rw [keys_consOptStr_other _ _ _ _ e24.symm, keys_consOptStr_other _ _ _ _ e34.symm,
      keys_consOptArr_self _ _ _ (by simp [JObj.keys])]
    simp [e14]
  · rw [hbase badgeK hx2]
    have hnone : (condObj (!o.sound.isEmpty) soundK (.jstr o.sound)
        (condObj o.contentAvailable contentAvailableK (.jnat 1) .nil)).lookup badgeK
        = none := by
      rw [lookup_condObj_other _ _ _ _ _ d23.symm,
        lookup_condObj_other _ _ _ _ _ d24.symm]
      rfl
    simp only [JObj.lookup, if_neg d12]
    exact lookup_condObj_self _ _ _ _ hnone
  · rw [hbase soundK hx3]
    have hnone : (condObj o.contentAvailable contentAvailableK
        ((.jnat 1) : JValue) .nil).lookup soundK = none := by
      rw [lookup_condObj_other _ _ _ _ _ d34.symm]
      rfl
    simp only [JObj.lookup, if_neg d13]
    rw [lookup_condObj_other _ _ _ _ _ d23, lookup_condObj_self _ _ _ _ hnone]
    cases hs : o.sound.isEmpty <;> simp [hs]
  · rw [hbase contentAvailableK hx4]
    simp only [JObj.lookup, if_neg d14]
    rw [lookup_condObj_other _ _ _ _ _ d24, lookup_condObj_other _ _ _ _ _ d34,
      lookup_condObj_self _ _ _ _ (by rfl)]
  · unfold apsPayload
    refine jser_wsFree_v _ ?_
    simp only [strNoSpaceV, strNoSpaceO, Bool.and_eq_true]
    exact ⟨⟨by decide, strNoSpaceO_buildData alert o ha hsound hk1 hk2 hk3 hxs⟩, trivial⟩

/-- Witness for C9 at `opts9`: the alert is wrapped (a loc key is given),
only that loc sub-field is present, badge/sound/content-available appear
with their values, and the payload has no whitespace byte. -/
theorem C9_witness :
    ((buildData alertHi opts9).lookup alertK =
      some (if anyLocTruthy opts9 then .jobj (wrappedAlert alertHi opts9) else alertHi)) ∧
    ((wrappedAlert alertHi opts9).lookup bodyK = some alertHi) ∧
    (actionLocKeyK ∈ (wrappedAlert alertHi opts9).keys ↔ truthyOpt opts9.actionLocKey = true) ∧
    (locKeyK ∈ (wrappedAlert alertHi opts9).keys ↔ truthyOpt opts9.locKey = true) ∧
    (locArgsK ∈ (wrappedAlert alertHi opts9).keys ↔ truthyList opts9.locArgs = true) ∧
    ((buildData alertHi opts9).lookup badgeK =
      if opts9.badge != 0 then some (.jnat opts9.badge) else none) ∧
    ((buildData alertHi opts9).lookup soundK =
      if opts9.sound.isEmpty then none else some (.jstr opts9.sound)) ∧
    ((buildData alertHi opts9).lookup contentAvailableK =
      if opts9.contentAvailable then some (.jnat 1) else none) ∧
    ((apsPayload alertHi opts9).all wsFreeByte = true) :=
  C9_payload_field_rules alertHi opts9 (by decide) (by decide) (by decide)
    (by decide) (by decide) (by decide) (by decide) (by decide) (by decide)
    (by decide)

end APNS
